import Mathlib

/-!
Verification of the IATA DISH HOT file parser (`src/hot_parser.py`).

Shallow embedding conventions:
* Python `str` values manipulated character-wise become `List Char` (`Chars`);
  values stored in the output model stay `String`.
* `decimal.Decimal` amounts become `Rat`: every amount produced by the parser
  is an integer divided by a power of ten well inside `Decimal`'s 28-digit
  context, so the arithmetic is exact and `Rat` models it faithfully.
* `datetime` values produced by `_parse_date_ddmmyy` carry only a calendar
  date (the time part is always midnight), embedded as `HDate`.
* The mutable parser object (`self.warnings`, `self.errors`,
  `self._currency_decimals`) is threaded explicitly: `dispatch` acts on the
  `Core` state (currency decimals, output file, current agent/document
  cursors) because the Python dispatch branches never touch the diagnostic
  lists, and `PState` adds the two diagnostic lists on top.
-/

abbrev Chars := List Char

/-- Whitespace as recognised by Python's `str.strip()` / `str.isspace()`:
the full set for `str` code points — `\t\n\x0b\x0c\r` (U+0009-U+000D), the
ASCII separators U+001C-U+001F, space, NEL (U+0085), NBSP (U+00A0), and the
Unicode space characters U+1680, U+2000-U+200A, U+2028, U+2029, U+202F,
U+205F and U+3000. -/
def isPySpace (c : Char) : Bool :=
  let n := c.toNat
  (9 ≤ n && n ≤ 13) || (28 ≤ n && n ≤ 31) || n = 32 || n = 133 || n = 160 ||
  n = 5760 || (8192 ≤ n && n ≤ 8202) || n = 8232 || n = 8233 || n = 8239 ||
  n = 8287 || n = 12288

/-- Python `str.rstrip()` (whitespace from the right). -/
def rstripWS (l : Chars) : Chars := (l.reverse.dropWhile isPySpace).reverse

/-- Python `str.strip()` (whitespace from both ends). -/
def pyStrip (l : Chars) : Chars := rstripWS (l.dropWhile isPySpace)

/-- Python `line.rstrip('\r\n')`. -/
def rstripNL (l : Chars) : Chars :=
  (l.reverse.dropWhile (fun c => c = '\r' || c = '\n')).reverse

/-- Python `line.ljust(n)` as used in `parse_content`: lines shorter than the
record length are right-padded with spaces, longer lines stay unchanged. -/
def padTo (n : Nat) (l : Chars) : Chars :=
  if l.length < n then l ++ List.replicate (n - l.length) ' ' else l

/-- Python `str.zfill(n)` on an unsigned digit string (the parser only ever
calls it on `str(int)` or on stripped unsigned field text, never on a
sign-prefixed string). -/
def pyZfill (n : Nat) (l : Chars) : Chars :=
  if n ≤ l.length then l else List.replicate (n - l.length) '0' ++ l

/-- Value of a (non-empty) digit string, as Python `int(...)`. -/
def natOfDigits (l : Chars) : Nat :=
  l.foldl (fun a c => a * 10 + (c.toNat - 48)) 0

/-- `HOTParser._parse_numeric`: strip, drop non-digits, `int(...)`, with `0`
for empty results. -/
def parseNumeric (v : Chars) : Nat :=
  let v := pyStrip v
  if v = [] then 0
  else
    let clean := v.filter Char.isDigit
    if clean = [] then 0 else natOfDigits clean

/-- `HOTParser.OVERPUNCH_POSITIVE`. -/
def overpunchPos (c : Char) : Option Char :=
  match c with
  | '{' => some '0' | 'A' => some '1' | 'B' => some '2' | 'C' => some '3'
  | 'D' => some '4' | 'E' => some '5' | 'F' => some '6' | 'G' => some '7'
  | 'H' => some '8' | 'I' => some '9'
  | _ => none

/-- `HOTParser.OVERPUNCH_NEGATIVE`. -/
def overpunchNeg (c : Char) : Option Char :=
  match c with
  | '}' => some '0' | 'J' => some '1' | 'K' => some '2' | 'L' => some '3'
  | 'M' => some '4' | 'N' => some '5' | 'O' => some '6' | 'P' => some '7'
  | 'Q' => some '8' | 'R' => some '9'
  | _ => none

/-- `HOTParser._parse_signed_numeric`.  The trailing `Decimal(value) /
(10 ** self._currency_decimals)` is exact for the field widths involved, so
the `try`/`except` around it never fires; `cdec` is the parser's current
`_currency_decimals`. -/
def parseSignedNumeric (value : Chars) (cdec : Nat) : Rat :=
  let v := pyStrip value
  match v.getLast? with
  | none => 0
  | some last =>
    let step : Chars × Bool :=
      match overpunchPos last with
      | some d => (v.dropLast ++ [d], false)
      | none =>
        match overpunchNeg last with
        | some d => (v.dropLast ++ [d], true)
        | none =>
          if last = '+' then (v.dropLast, false)
          else if last = '-' then (v.dropLast, true)
          else (v, false)
    let digits := step.1.filter Char.isDigit
    if digits = [] then 0
    else
      let r : Rat := (natOfDigits digits : Rat) / ((10 : Rat) ^ cdec)
      if step.2 then -r else r

/-- Calendar date (the only content of the `datetime` values the parser
builds: `strptime` with pure date formats leaves the time at midnight). -/
structure HDate where
  year : Nat
  month : Nat
  day : Nat
deriving DecidableEq

/-- Gregorian leap year, as validated by Python `datetime`. -/
def isLeap (y : Nat) : Bool :=
  y % 4 = 0 && (y % 100 ≠ 0 || y % 400 = 0)

/-- Days in a month, as validated by Python `datetime`. -/
def daysInMonth (y m : Nat) : Nat :=
  if m = 2 then (if isLeap y then 29 else 28)
  else if m = 4 || m = 6 || m = 9 || m = 11 then 30
  else 31

/-- Two-digit year expansion of `strptime`'s `%y`: values 0-68 map to
2000-2068, values 69-99 map to 1969-1999 (the POSIX pivot). -/
def pivotYear (yy : Nat) : Nat :=
  if yy ≤ 68 then 2000 + yy else 1900 + yy

/-- Numeric value of two digit characters; `none` if either is not a digit
(then the `strptime` pattern fails to match). -/
def twoDigitVal (a b : Char) : Option Nat :=
  if a.isDigit && b.isDigit then some ((a.toNat - 48) * 10 + (b.toNat - 48))
  else none

/-- Validation performed by `strptime`'s directive regexes plus the final
`datetime(...)` construction: month 1-12, day 1 to the month's length. -/
def mkValidDate (y m d : Nat) : Option HDate :=
  if 1 ≤ m ∧ m ≤ 12 ∧ 1 ≤ d ∧ d ≤ daysInMonth y m then some ⟨y, m, d⟩
  else none

/-- `datetime.strptime(value, "%d%m%y")` on a 6-character string.  On exactly
six characters the `%d`/`%m`/`%y` directives can only split 2+2+2, so the
match is position-wise. -/
def strptimeDMY (v : Chars) : Option HDate :=
  match v with
  | [a, b, c, d, e, f] => do
    let dd ← twoDigitVal a b
    let mm ← twoDigitVal c d
    let yy ← twoDigitVal e f
    mkValidDate (pivotYear yy) mm dd
  | _ => none

/-- `datetime.strptime(value, "%y%m%d")`, the fallback format. -/
def strptimeYMD (v : Chars) : Option HDate :=
  match v with
  | [a, b, c, d, e, f] => do
    let yy ← twoDigitVal a b
    let mm ← twoDigitVal c d
    let dd ← twoDigitVal e f
    mkValidDate (pivotYear yy) mm dd
  | _ => none

/-- `HOTParser._parse_date_ddmmyy` on string input: strip, `zfill(6)`,
reject non-6-length or all-zero values, try DDMMYY then YYMMDD. -/
def parseDateChars (s : Chars) : Option HDate :=
  let v := pyZfill 6 (pyStrip s)
  if v = [] ∨ v.length ≠ 6 ∨ v = ['0', '0', '0', '0', '0', '0'] then none
  else
    match strptimeDMY v with
    | some d => some d
    | none => strptimeYMD v

/-- `HOTParser._parse_date_ddmmyy` applied to an unsigned-numeric field value
(the callers pass the `int` produced by `_parse_numeric`; `str(value)` is its
decimal representation). -/
def parseDateOfNat (n : Nat) : Option HDate :=
  parseDateChars (Nat.repr n).data

/-- One entry of a record layout (`RecordSpec` in the source): field name,
1-indexed start position, length, and data type tag (`A`/`N`/`AN`/`S`). -/
structure FieldSpec where
  name : String
  start : Nat
  len : Nat
  dtype : String
deriving DecidableEq

/-- The `BFH01` layout of `RECORD_SPECS`. -/
def specBFH01 : List FieldSpec := [⟨"record_id", 1, 5, "A"⟩, ⟨"sequence_number", 6, 6, "N"⟩,
    ⟨"bsp_code", 12, 2, "A"⟩, ⟨"file_date", 14, 6, "N"⟩,
    ⟨"billing_period", 20, 6, "N"⟩, ⟨"process_date", 26, 6, "N"⟩,
    ⟨"dish_version", 32, 5, "AN"⟩, ⟨"file_type", 37, 4, "A"⟩,
    ⟨"airline_code", 41, 3, "AN"⟩, ⟨"filler", 44, 93, "A"⟩]

/-- The `BCH02` layout of `RECORD_SPECS`. -/
def specBCH02 : List FieldSpec := [⟨"record_id", 1, 5, "A"⟩, ⟨"sequence_number", 6, 6, "N"⟩,
    ⟨"airline_code", 12, 3, "AN"⟩, ⟨"billing_period", 15, 6, "N"⟩,
    ⟨"bsp_code", 21, 2, "A"⟩, ⟨"currency", 23, 3, "A"⟩,
    ⟨"billing_type", 26, 2, "AN"⟩, ⟨"remittance_period", 28, 3, "N"⟩,
    ⟨"filler", 31, 106, "A"⟩]

/-- The `BOH03` layout of `RECORD_SPECS`. -/
def specBOH03 : List FieldSpec := [⟨"record_id", 1, 5, "A"⟩, ⟨"sequence_number", 6, 6, "N"⟩,
    ⟨"agent_iata_number", 12, 8, "AN"⟩, ⟨"agent_check_digit", 20, 1, "N"⟩,
    ⟨"agent_name", 21, 52, "A"⟩, ⟨"agent_city", 73, 3, "A"⟩,
    ⟨"filler", 76, 61, "A"⟩]

/-- The `BKT06` layout of `RECORD_SPECS`. -/
def specBKT06 : List FieldSpec := [⟨"record_id", 1, 5, "A"⟩, ⟨"sequence_number", 6, 6, "N"⟩,
    ⟨"transaction_code", 12, 4, "A"⟩, ⟨"airline_code", 16, 3, "AN"⟩,
    ⟨"document_count", 19, 6, "N"⟩, ⟨"filler", 25, 112, "A"⟩]

/-- The `BKS24` layout of `RECORD_SPECS`. -/
def specBKS24 : List FieldSpec := [⟨"record_id", 1, 5, "A"⟩, ⟨"sequence_number", 6, 6, "N"⟩,
    ⟨"document_number", 12, 14, "AN"⟩, ⟨"transaction_code", 26, 4, "A"⟩,
    ⟨"form_code", 30, 4, "A"⟩, ⟨"issue_date", 34, 6, "N"⟩,
    ⟨"original_issue_date", 40, 6, "N"⟩, ⟨"issue_time", 46, 6, "N"⟩,
    ⟨"dom_int_indicator", 52, 1, "A"⟩, ⟨"tour_code", 53, 15, "AN"⟩,
    ⟨"related_doc_number", 68, 14, "AN"⟩, ⟨"filler", 82, 55, "A"⟩]

/-- The `BKS30` layout of `RECORD_SPECS`. -/
def specBKS30 : List FieldSpec := [⟨"record_id", 1, 5, "A"⟩, ⟨"sequence_number", 6, 6, "N"⟩,
    ⟨"stat_code", 12, 1, "A"⟩, ⟨"currency", 13, 3, "A"⟩,
    ⟨"currency_decimals", 16, 1, "N"⟩, ⟨"fare_amount", 17, 12, "S"⟩,
    ⟨"equivalent_fare", 29, 12, "S"⟩, ⟨"total_tax", 41, 12, "S"⟩,
    ⟨"penalty", 53, 12, "S"⟩, ⟨"total_amount", 65, 12, "S"⟩,
    ⟨"filler", 77, 60, "A"⟩]

/-- The `BKS31` layout of `RECORD_SPECS`. -/
def specBKS31 : List FieldSpec := [⟨"record_id", 1, 5, "A"⟩, ⟨"sequence_number", 6, 6, "N"⟩,
    ⟨"tax_country", 12, 2, "A"⟩, ⟨"tax_code_1", 14, 2, "A"⟩,
    ⟨"tax_amount_1", 16, 12, "S"⟩, ⟨"tax_code_2", 28, 2, "A"⟩,
    ⟨"tax_amount_2", 30, 12, "S"⟩, ⟨"tax_code_3", 42, 2, "A"⟩,
    ⟨"tax_amount_3", 44, 12, "S"⟩, ⟨"tax_code_4", 56, 2, "A"⟩,
    ⟨"tax_amount_4", 58, 12, "S"⟩, ⟨"filler", 70, 67, "A"⟩]

/-- The `BKS39` layout of `RECORD_SPECS`. -/
def specBKS39 : List FieldSpec := [⟨"record_id", 1, 5, "A"⟩, ⟨"sequence_number", 6, 6, "N"⟩,
    ⟨"comm_type", 12, 1, "A"⟩, ⟨"comm_rate", 13, 5, "N"⟩,
    ⟨"comm_amount", 18, 12, "S"⟩, ⟨"vat_on_comm", 30, 12, "S"⟩,
    ⟨"net_remit", 42, 12, "S"⟩, ⟨"filler", 54, 83, "A"⟩]

/-- The `BKI63` layout of `RECORD_SPECS`. -/
def specBKI63 : List FieldSpec := [⟨"record_id", 1, 5, "A"⟩, ⟨"sequence_number", 6, 6, "N"⟩,
    ⟨"coupon_number", 12, 2, "N"⟩, ⟨"origin", 14, 3, "A"⟩,
    ⟨"destination", 17, 3, "A"⟩, ⟨"stopover_code", 20, 1, "A"⟩,
    ⟨"carrier", 21, 3, "AN"⟩, ⟨"flight_number", 24, 5, "AN"⟩,
    ⟨"class_of_service", 29, 2, "A"⟩, ⟨"flight_date", 31, 6, "N"⟩,
    ⟨"departure_time", 37, 4, "N"⟩, ⟨"arrival_time", 41, 4, "N"⟩,
    ⟨"fare_basis", 45, 15, "AN"⟩, ⟨"nvb", 60, 6, "N"⟩,
    ⟨"nva", 66, 6, "N"⟩, ⟨"baggage", 72, 3, "AN"⟩,
    ⟨"coupon_value", 75, 12, "S"⟩, ⟨"filler", 87, 50, "A"⟩]

/-- The `BAR64` layout of `RECORD_SPECS`. -/
def specBAR64 : List FieldSpec := [⟨"record_id", 1, 5, "A"⟩, ⟨"sequence_number", 6, 6, "N"⟩,
    ⟨"passenger_name", 12, 49, "A"⟩, ⟨"passenger_type", 61, 3, "A"⟩,
    ⟨"filler", 64, 73, "A"⟩]

/-- The `BKP84` layout of `RECORD_SPECS`. -/
def specBKP84 : List FieldSpec := [⟨"record_id", 1, 5, "A"⟩, ⟨"sequence_number", 6, 6, "N"⟩,
    ⟨"fop_sequence", 12, 2, "N"⟩, ⟨"fop_type", 14, 2, "A"⟩,
    ⟨"cc_code", 16, 2, "A"⟩, ⟨"fop_amount", 18, 12, "S"⟩,
    ⟨"card_number", 30, 20, "AN"⟩, ⟨"expiry", 50, 4, "N"⟩,
    ⟨"approval_code", 54, 8, "AN"⟩, ⟨"filler", 62, 75, "A"⟩]

/-- The `BOT93` layout of `RECORD_SPECS`. -/
def specBOT93 : List FieldSpec := [⟨"record_id", 1, 5, "A"⟩, ⟨"sequence_number", 6, 6, "N"⟩,
    ⟨"transaction_code", 12, 4, "A"⟩, ⟨"currency", 16, 3, "A"⟩,
    ⟨"document_count", 19, 6, "N"⟩, ⟨"fare_total", 25, 14, "S"⟩,
    ⟨"tax_total", 39, 14, "S"⟩, ⟨"penalty_total", 53, 14, "S"⟩,
    ⟨"comm_total", 67, 14, "S"⟩, ⟨"net_remit_total", 81, 14, "S"⟩,
    ⟨"total_amount", 95, 14, "S"⟩, ⟨"filler", 109, 28, "A"⟩]

/-- The `BOT94` layout of `RECORD_SPECS`. -/
def specBOT94 : List FieldSpec := [⟨"record_id", 1, 5, "A"⟩, ⟨"sequence_number", 6, 6, "N"⟩,
    ⟨"currency", 12, 3, "A"⟩, ⟨"document_count", 15, 6, "N"⟩,
    ⟨"fare_total", 21, 14, "S"⟩, ⟨"tax_total", 35, 14, "S"⟩,
    ⟨"penalty_total", 49, 14, "S"⟩, ⟨"comm_total", 63, 14, "S"⟩,
    ⟨"net_remit_total", 77, 14, "S"⟩, ⟨"total_amount", 91, 14, "S"⟩,
    ⟨"filler", 105, 32, "A"⟩]

/-- The `BCT95` layout of `RECORD_SPECS`. -/
def specBCT95 : List FieldSpec := [⟨"record_id", 1, 5, "A"⟩, ⟨"sequence_number", 6, 6, "N"⟩,
    ⟨"currency", 12, 3, "A"⟩, ⟨"document_count", 15, 6, "N"⟩,
    ⟨"fare_total", 21, 14, "S"⟩, ⟨"tax_total", 35, 14, "S"⟩,
    ⟨"penalty_total", 49, 14, "S"⟩, ⟨"comm_total", 63, 14, "S"⟩,
    ⟨"net_remit_total", 77, 14, "S"⟩, ⟨"total_amount", 91, 14, "S"⟩,
    ⟨"filler", 105, 32, "A"⟩]

/-- The `BFT99` layout of `RECORD_SPECS`. -/
def specBFT99 : List FieldSpec := [⟨"record_id", 1, 5, "A"⟩, ⟨"sequence_number", 6, 6, "N"⟩,
    ⟨"currency", 12, 3, "A"⟩, ⟨"document_count", 15, 6, "N"⟩,
    ⟨"fare_total", 21, 14, "S"⟩, ⟨"tax_total", 35, 14, "S"⟩,
    ⟨"penalty_total", 49, 14, "S"⟩, ⟨"comm_total", 63, 14, "S"⟩,
    ⟨"net_remit_total", 77, 14, "S"⟩, ⟨"total_amount", 91, 14, "S"⟩,
    ⟨"filler", 105, 32, "A"⟩]

/-- The DISH Revision 23 layout table `RECORD_SPECS`, keyed as in the source. -/
def RECORD_SPECS : List (String × List FieldSpec) := [
  ("BFH01", specBFH01),
  ("BCH02", specBCH02),
  ("BOH03", specBOH03),
  ("BKT06", specBKT06),
  ("BKS24", specBKS24),
  ("BKS30", specBKS30),
  ("BKS31", specBKS31),
  ("BKS39", specBKS39),
  ("BKI63", specBKI63),
  ("BAR64", specBAR64),
  ("BKP84", specBKP84),
  ("BOT93", specBOT93),
  ("BOT94", specBOT94),
  ("BCT95", specBCT95),
  ("BFT99", specBFT99)]

/-- `HOTParser.RECORD_PREFIX_MAP`, transcribed verbatim (dictionary order
preserved; lookups by exact key, so order is immaterial as keys are unique). -/
def RECORD_PREFIX_MAP : List (String × String) := [
  ("BFH", "BFH01"), ("BCH", "BCH02"), ("BOH", "BOH03"), ("BKT", "BKT06"),
  ("BKS24", "BKS24"), ("BKS30", "BKS30"), ("BKS31", "BKS31"),
  ("BKS39", "BKS39"), ("BKI", "BKI63"), ("BAR64", "BAR64"),
  ("BAR66", "BAR66"), ("BAR", "BAR64"), ("BKP", "BKP84"), ("BKF", "BKS30"),
  ("BOT93", "BOT93"), ("BOT94", "BOT94"), ("BOT", "BOT94"),
  ("BCT", "BCT95"), ("BFT", "BFT99")]

/-- `HOTParser._get_spec_key`: exact layout match, then 5-character prefix-map
match, then 3-character prefix-map match, then the BKS fallback. -/
def getSpecKey (rid : Chars) : Option String :=
  let rs := String.mk rid
  if (RECORD_SPECS.lookup rs).isSome then some rs
  else
    match RECORD_PREFIX_MAP.lookup rs with
    | some k => some k
    | none =>
      let p3 := String.mk (rid.take 3)
      match RECORD_PREFIX_MAP.lookup p3 with
      | some k => some k
      | none => if p3 = "BKS" then some "BKS24" else none

/-- A decoded field value: `S` fields become `Decimal` (here `Rat`), `N`
fields become `int` (here `Nat`), everything else a stripped `str`. -/
inductive FieldVal where
  | S (q : Rat)
  | N (n : Nat)
  | A (s : String)
deriving DecidableEq

/-- The dictionary `_parse_record` builds: the `_record_id`, `_spec_key` and
`_raw` bookkeeping keys plus one entry per layout field (layout field names
are unique, so an association list ordered like the layout is faithful). -/
structure Parsed where
  recordId : Chars
  specKey : String
  raw : Chars
  fields : List (String × FieldVal)
deriving DecidableEq

/-- `record.get(name, '')` at call sites expecting text.  Every such call in
the source addresses an `A`/`AN` field of the record's own layout (or a field
absent from it), so the mismatch arm is unreachable and the default is `''`. -/
def Parsed.getStr (p : Parsed) (name : String) : String :=
  match p.fields.lookup name with
  | some (.A s) => s
  | _ => ""

/-- `record.get(name, 0)` / `.get(name, '')` at call sites expecting the
`int` of an `N` field (default `0`; the one site with default `''`,
`_parse_date_ddmmyy`'s argument, stringifies it, and its field always
exists). -/
def Parsed.getNat (p : Parsed) (name : String) : Nat :=
  match p.fields.lookup name with
  | some (.N n) => n
  | _ => 0

/-- `record.get(name, Decimal('0'))` at call sites expecting an `S` field. -/
def Parsed.getRat (p : Parsed) (name : String) : Rat :=
  match p.fields.lookup name with
  | some (.S q) => q
  | _ => 0

/-- The slice `line[start:end] if end <= len(line) else line[start:]` taken by
`_parse_record` for a field at 1-indexed `start1` of width `len`. -/
def extractRange (line : Chars) (start1 len : Nat) : Chars :=
  let s0 := start1 - 1
  if s0 + len ≤ line.length then (line.drop s0).take len else line.drop s0

/-- Decoding of one field in `_parse_record`'s loop. -/
def decodeField (line : Chars) (cdec : Nat) (fs : FieldSpec) : FieldVal :=
  let raw := extractRange line fs.start fs.len
  if fs.dtype = "S" then .S (parseSignedNumeric raw cdec)
  else if fs.dtype = "N" then .N (parseNumeric raw)
  else .A (String.mk (pyStrip raw))

/-- `HOTParser._parse_record`: resolve the layout, decode every field.
`none` both when no key resolves and when the resolved key has no layout
(the `BAR66` prefix-map entry). -/
def parseRecord (line : Chars) (rid : Chars) (cdec : Nat) : Option Parsed :=
  match getSpecKey rid with
  | none => none
  | some k =>
    match RECORD_SPECS.lookup k with
    | none => none
    | some specs =>
      some ⟨rid, k, line, specs.map (fun fs => (fs.name, decodeField line cdec fs))⟩

/-- One entry of `TicketDocument.taxes`. -/
structure TaxInfo where
  country : String
  code : String
  amount : Rat
deriving DecidableEq

/-- One entry of `TicketDocument.segments` (the dictionary built by
`_process_segment`; `coupon` holds the `int` of the `N` field, the two times
hold `str(value).zfill(4)`). -/
structure SegmentInfo where
  coupon : Nat
  origin : String
  destination : String
  stopover : String
  carrier : String
  flight_number : String
  cls : String
  flight_date : Option HDate
  departure_time : String
  arrival_time : String
  fare_basis : String
deriving DecidableEq

/-- The `TicketDocument` dataclass. -/
structure TicketDocument where
  document_number : String
  transaction_code : String
  form_code : String
  issue_date : Option HDate
  original_issue_date : Option HDate
  dom_int_indicator : String
  passenger_name : String
  passenger_type : String
  currency : String
  currency_decimals : Nat
  fare_amount : Rat
  equivalent_fare : Rat
  total_tax : Rat
  penalty : Rat
  total_amount : Rat
  commission_amount : Rat
  commission_rate : Rat
  net_remit : Rat
  taxes : List TaxInfo
  segments : List SegmentInfo
  fop_type : String
  fop_cc_code : String
  card_number : String
  fop_amount : Rat
  raw_records : List Parsed
deriving DecidableEq

/-- `TicketDocument()` defaults. -/
def initDocument : TicketDocument :=
  ⟨"", "", "", none, none, "", "", "", "", 2, 0, 0, 0, 0, 0, 0, 0, 0,
   [], [], "", "", "", 0, []⟩

/-- The `Agent` dataclass. -/
structure Agent where
  iata_number : String
  name : String
  city : String
  documents : List TicketDocument
  total_fare : Rat
  total_tax : Rat
  total_amount : Rat
  net_remit : Rat
  document_count : Nat
deriving DecidableEq

/-- `Agent()` defaults. -/
def initAgent : Agent := ⟨"", "", "", [], 0, 0, 0, 0, 0⟩

/-- The `HOTFile` dataclass. -/
structure HOTFile where
  bsp_code : String
  file_date : Option HDate
  billing_period : String
  dish_version : String
  file_type : String
  airline_code : String
  currency : String
  agents : List Agent
  total_documents : Nat
  total_fare : Rat
  total_tax : Rat
  total_amount : Rat
  net_remit : Rat
  raw_records : List Parsed
deriving DecidableEq

/-- `HOTFile()` defaults. -/
def initHOTFile : HOTFile := ⟨"", none, "", "", "", "", "", [], 0, 0, 0, 0, 0, []⟩

/-- Python `str.strip()` on a model-level `String`. -/
def stripStr (s : String) : String := String.mk (pyStrip s.data)

/-- `HOTParser._is_document_record`. -/
def isDocumentRecord (p : Parsed) : Bool :=
  let docNum := p.getStr "document_number"
  let transCode := p.getStr "transaction_code"
  if transCode ∈ ["TKTT", "RFND", "EXCH", "CANX", "ACMA", "ADMA"] then true
  else if docNum ≠ "" ∧ (stripStr docNum).length ≥ 10 then true
  else false

/-- `HOTParser._process_file_header`. -/
def processFileHeader (hf : HOTFile) (p : Parsed) : HOTFile :=
  { hf with
    bsp_code := p.getStr "bsp_code"
    file_date := parseDateOfNat (p.getNat "file_date")
    billing_period := Nat.repr (p.getNat "billing_period")
    dish_version := p.getStr "dish_version"
    file_type := p.getStr "file_type"
    airline_code :=
      if p.getStr "airline_code" ≠ "" then p.getStr "airline_code"
      else hf.airline_code }

/-- `HOTParser._process_billing_header`. -/
def processBillingHeader (hf : HOTFile) (p : Parsed) : HOTFile :=
  { hf with
    airline_code := p.getStr "airline_code"
    currency := p.getStr "currency"
    bsp_code := if hf.bsp_code = "" then p.getStr "bsp_code" else hf.bsp_code }

/-- `HOTParser._process_office_header`. -/
def processOfficeHeader (a : Agent) (p : Parsed) : Agent :=
  { a with
    iata_number := p.getStr "agent_iata_number"
    name := stripStr (p.getStr "agent_name")
    city := p.getStr "agent_city" }

/-- `HOTParser._process_document_id`. -/
def processDocumentId (d : TicketDocument) (p : Parsed) : TicketDocument :=
  { d with
    document_number := stripStr (p.getStr "document_number")
    transaction_code := stripStr (p.getStr "transaction_code")
    form_code := stripStr (p.getStr "form_code")
    issue_date := parseDateOfNat (p.getNat "issue_date")
    original_issue_date := parseDateOfNat (p.getNat "original_issue_date")
    dom_int_indicator := p.getStr "dom_int_indicator"
    raw_records := d.raw_records ++ [p] }

/-- `HOTParser._process_amounts`; also returns the parser's new
`_currency_decimals` (updated when the record's decimals digit is 0-4). -/
def processAmounts (d : TicketDocument) (p : Parsed) (cdec : Nat) :
    TicketDocument × Nat :=
  let decimals := p.getNat "currency_decimals"
  let ok := decimals ≤ 4
  ({ d with
     currency := stripStr (p.getStr "currency")
     currency_decimals := if ok then decimals else d.currency_decimals
     fare_amount := p.getRat "fare_amount"
     equivalent_fare := p.getRat "equivalent_fare"
     total_tax := p.getRat "total_tax"
     penalty := p.getRat "penalty"
     total_amount := p.getRat "total_amount"
     raw_records := d.raw_records ++ [p] },
   if ok then decimals else cdec)

/-- One iteration of `_process_tax`'s loop body for tax slot `i`. -/
def taxStep (country : String) (p : Parsed) (codeName amtName : String)
    (txs : List TaxInfo) : List TaxInfo :=
  let taxCode := stripStr (p.getStr codeName)
  let taxAmount := p.getRat amtName
  if taxCode ≠ "" ∧ taxAmount ≠ 0 then txs ++ [⟨country, taxCode, taxAmount⟩]
  else txs

/-- `HOTParser._process_tax` (the loop over slots 1-4, unrolled). -/
def processTax (d : TicketDocument) (p : Parsed) : TicketDocument :=
  let country := p.getStr "tax_country"
  let t1 := taxStep country p "tax_code_1" "tax_amount_1" d.taxes
  let t2 := taxStep country p "tax_code_2" "tax_amount_2" t1
  let t3 := taxStep country p "tax_code_3" "tax_amount_3" t2
  let t4 := taxStep country p "tax_code_4" "tax_amount_4" t3
  { d with taxes := t4, raw_records := d.raw_records ++ [p] }

/-- `HOTParser._process_commission` (`comm_rate` is always the `int` of an
`N` field, so the `isinstance` branch always converts it). -/
def processCommission (d : TicketDocument) (p : Parsed) : TicketDocument :=
  { d with
    commission_rate := (p.getNat "comm_rate" : Rat) / 100
    commission_amount := p.getRat "comm_amount"
    net_remit := p.getRat "net_remit"
    raw_records := d.raw_records ++ [p] }

/-- `HOTParser._process_segment`. -/
def processSegment (d : TicketDocument) (p : Parsed) : TicketDocument :=
  let seg : SegmentInfo :=
    { coupon := p.getNat "coupon_number"
      origin := stripStr (p.getStr "origin")
      destination := stripStr (p.getStr "destination")
      stopover := p.getStr "stopover_code"
      carrier := stripStr (p.getStr "carrier")
      flight_number := stripStr (p.getStr "flight_number")
      cls := stripStr (p.getStr "class_of_service")
      flight_date := parseDateOfNat (p.getNat "flight_date")
      departure_time := String.mk (pyZfill 4 (Nat.repr (p.getNat "departure_time")).data)
      arrival_time := String.mk (pyZfill 4 (Nat.repr (p.getNat "arrival_time")).data)
      fare_basis := stripStr (p.getStr "fare_basis") }
  { d with segments := d.segments ++ [seg], raw_records := d.raw_records ++ [p] }

/-- `HOTParser._process_passenger`. -/
def processPassenger (d : TicketDocument) (p : Parsed) : TicketDocument :=
  { d with
    passenger_name := stripStr (p.getStr "passenger_name")
    passenger_type := stripStr (p.getStr "passenger_type")
    raw_records := d.raw_records ++ [p] }

/-- `HOTParser._process_payment`. -/
def processPayment (d : TicketDocument) (p : Parsed) : TicketDocument :=
  { d with
    fop_type := stripStr (p.getStr "fop_type")
    fop_cc_code := stripStr (p.getStr "cc_code")
    card_number := stripStr (p.getStr "card_number")
    fop_amount := p.getRat "fop_amount"
    raw_records := d.raw_records ++ [p] }

/-- `HOTParser._process_office_totals`. -/
def processOfficeTotals (a : Agent) (p : Parsed) : Agent :=
  { a with
    document_count := p.getNat "document_count"
    total_fare := p.getRat "fare_total"
    total_tax := p.getRat "tax_total"
    total_amount := p.getRat "total_amount"
    net_remit := p.getRat "net_remit_total" }

/-- `HOTParser._process_file_totals`. -/
def processFileTotals (hf : HOTFile) (p : Parsed) : HOTFile :=
  { hf with
    currency := if p.getStr "currency" ≠ "" then p.getStr "currency" else hf.currency
    total_documents := p.getNat "document_count"
    total_fare := p.getRat "fare_total"
    total_tax := p.getRat "tax_total"
    total_amount := p.getRat "total_amount"
    net_remit := p.getRat "net_remit_total" }

/-- `HOTParser._process_auto_bks`; also returns the new `_currency_decimals`
because one of its branches calls `_process_amounts`.  (With this layout
table the call site is unreachable, but it is ported for fidelity.) -/
def processAutoBks (d : TicketDocument) (p : Parsed) (cdec : Nat) :
    TicketDocument × Nat :=
  let raw := p.raw
  let potentialCurrency := pyStrip ((raw.drop 12).take 3)
  if raw.length > 15 ∧ potentialCurrency.all Char.isAlpha ∧
      potentialCurrency ≠ [] ∧ potentialCurrency.length = 3 then
    processAmounts d p cdec
  else
    let potentialTax := String.mk (pyStrip ((raw.drop 13).take 2))
    if raw.length > 16 ∧ potentialTax ∈ ["YQ", "YR", "TR", "DE", "GB", "US", "FR"] then
      (processTax d p, cdec)
    else
      ({ d with raw_records := d.raw_records ++ [p] }, cdec)

/-- The state mutated by the dispatch section of `parse_content`: the
parser's `_currency_decimals`, the output `HOTFile` under construction and
the `current_agent` / `current_document` cursors.  The dispatch branches
never touch `self.warnings` / `self.errors`, which therefore live one level
up in `PState`. -/
structure Core where
  cdec : Nat
  file : HOTFile
  curAgent : Option Agent
  curDoc : Option TicketDocument
deriving DecidableEq

/-- Full per-parse state: `Core` plus the parser object's diagnostic lists. -/
structure PState where
  core : Core
  warnings : List String
  errors : List String
deriving DecidableEq

/-- The record-type dispatch of `parse_content` (lines 424-499 of the
source), acting on one successfully decoded record.  Branch order and guard
structure mirror the `if`/`elif` chain. -/
def dispatch (c : Core) (p : Parsed) : Core :=
  let specKey := p.specKey
  let prefix3 := p.recordId.take 3
  if prefix3 = "BFH".data then { c with file := processFileHeader c.file p }
  else if prefix3 = "BCH".data then { c with file := processBillingHeader c.file p }
  else if prefix3 = "BOH".data then
    let c1 :=
      match c.curDoc, c.curAgent with
      | some d, some a =>
        { c with curAgent := some { a with documents := a.documents ++ [d] },
                 curDoc := none }
      | _, _ => c
    let c2 :=
      match c1.curAgent with
      | some a => { c1 with file := { c1.file with agents := c1.file.agents ++ [a] } }
      | none => c1
    { c2 with curAgent := some (processOfficeHeader initAgent p) }
  else if prefix3 = "BKT".data then c
  else if prefix3 = "BKS".data then
    if specKey = "BKS24" ∨ isDocumentRecord p then
      let c1 :=
        match c.curDoc, c.curAgent with
        | some d, some a =>
          { c with curAgent := some { a with documents := a.documents ++ [d] } }
        | _, _ => c
      { c1 with curDoc := some (processDocumentId initDocument p) }
    else
      match c.curDoc with
      | none => c
      | some d =>
        if specKey = "BKS30" then
          let r := processAmounts d p c.cdec
          { c with curDoc := some r.1, cdec := r.2 }
        else if specKey = "BKS31" then { c with curDoc := some (processTax d p) }
        else if specKey = "BKS39" then { c with curDoc := some (processCommission d p) }
        else
          let r := processAutoBks d p c.cdec
          { c with curDoc := some r.1, cdec := r.2 }
  else if prefix3 = "BKI".data then
    match c.curDoc with
    | some d => { c with curDoc := some (processSegment d p) }
    | none => c
  else if prefix3 = "BAR".data then
    match c.curDoc with
    | some d => { c with curDoc := some (processPassenger d p) }
    | none => c
  else if prefix3 = "BKP".data then
    match c.curDoc with
    | some d => { c with curDoc := some (processPayment d p) }
    | none => c
  else if prefix3 = "BKF".data then
    match c.curDoc with
    | some d =>
      if d.total_amount = 0 then
        let r := processAmounts d p c.cdec
        { c with curDoc := some r.1, cdec := r.2 }
      else c
    | none => c
  else if prefix3 = "BOT".data then
    match c.curAgent with
    | none => c
    | some a =>
      let step : Agent × Option TicketDocument :=
        match c.curDoc with
        | some d => ({ a with documents := a.documents ++ [d] }, none)
        | none => (a, c.curDoc)
      { c with curAgent := some (processOfficeTotals step.1 p), curDoc := step.2 }
  else if prefix3 = "BCT".data then c
  else if prefix3 = "BFT".data then
    let c1 :=
      match c.curDoc, c.curAgent with
      | some d, some a =>
        { c with curAgent := some { a with documents := a.documents ++ [d] },
                 curDoc := none }
      | _, _ => c
    let c2 :=
      match c1.curAgent with
      | some a =>
        { c1 with file := { c1.file with agents := c1.file.agents ++ [a] },
                  curAgent := none }
      | none => c1
    { c2 with file := processFileTotals c2.file p }
  else c

/-- The warning `parse_content` records for an unresolvable record type. -/
def unknownWarning (lineNum : Nat) (rid : Chars) : String :=
  "Line " ++ Nat.repr lineNum ++ ": Unknown record type \x27" ++
    String.mk rid ++ "\x27"

/-- Processing of one non-blank, already padded line (`parse_content` lines
406-499): the silent skip of blank-identifier records, the unknown-type
warning, the `raw_records` append and the dispatch. -/
def handleRecord (s : PState) (lineNum : Nat) (line : Chars) : PState :=
  let rid := line.take 5
  if pyStrip rid = [] ∨ rid.head? = some ' ' then s
  else
    match parseRecord line rid s.core.cdec with
    | none => { s with warnings := s.warnings ++ [unknownWarning lineNum rid] }
    | some p =>
      let withRaw :=
        { s.core with file :=
            { s.core.file with raw_records := s.core.file.raw_records ++ [p] } }
      { s with core := dispatch withRaw p }

/-- One iteration of the `for line_num, line in enumerate(lines, 1)` loop:
strip trailing CR/LF, skip empty or all-whitespace lines, pad to 136. -/
def processLine (s : PState) (lineNum : Nat) (l : Chars) : PState :=
  let l1 := rstripNL l
  if l1 = [] ∨ l1.all isPySpace then s
  else handleRecord s lineNum (padTo 136 l1)

/-- The whole line loop, with 1-based line numbering threaded through. -/
def processLines (s : PState) (lineNum : Nat) : List Chars → PState
  | [] => s
  | l :: ls => processLines (processLine s lineNum l) (lineNum + 1) ls

/-- End-of-input finalization (`parse_content` lines 501-505): append a
pending document to the pending agent, then append the pending agent unless
an equal agent is already present (`current_agent not in hot_file.agents`,
dataclass structural equality). -/
def finalizeParse (s : PState) : PState :=
  let c := s.core
  let c1 :=
    match c.curDoc, c.curAgent with
    | some d, some a =>
      { c with curAgent := some { a with documents := a.documents ++ [d] } }
    | _, _ => c
  let c2 :=
    match c1.curAgent with
    | some a =>
      if a ∈ c1.file.agents then c1
      else { c1 with file := { c1.file with agents := c1.file.agents ++ [a] } }
    | none => c1
  { s with core := c2 }

/-- `content.replace('\r\n', '\n')`. -/
def replaceCRLF : Chars → Chars
  | '\r' :: '\n' :: t => '\n' :: replaceCRLF t
  | c :: t => c :: replaceCRLF t
  | [] => []

/-- Python `content.split('\n')` (note `''.split('\n') == ['']`). -/
def pySplitNL : Chars → List Chars
  | [] => [[]]
  | c :: t =>
    match pySplitNL t with
    | [] => [[]]
    | h :: r => if c = '\n' then [] :: h :: r else (c :: h) :: r

/-- The fixed-width chunking used when the content has no line breaks:
`[content[i:i+136] for i in range(0, len(content), 136)]`, with
`range(0, n, 136)` having `(n + 135) / 136` elements. -/
def chunks136 (l : Chars) : List Chars :=
  (List.range ((l.length + 135) / 136)).map (fun i => (l.drop (136 * i)).take 136)

/-- Line splitting in `parse_content`: normalise line endings, then split on
newlines when any are present, else chunk into 136-character windows. -/
def splitLines (content : Chars) : List Chars :=
  let c1 := (replaceCRLF content).map (fun ch => if ch = '\r' then '\n' else ch)
  if '\n' ∈ c1 then pySplitNL (pyStrip c1) else chunks136 c1

/-- The parser object's state that persists across `parse_content` calls:
`self.errors`, `self.warnings` and `self._currency_decimals`
(`HOTParser.__init__` sets `[]`, `[]`, `2`; `parse_content` never resets
them). -/
structure ParserGlobals where
  errors : List String
  warnings : List String
  cdec : Nat
deriving DecidableEq

/-- A freshly constructed `HOTParser()`. -/
def initGlobals : ParserGlobals := ⟨[], [], 2⟩

/-- `HOTParser.parse_content`: split the content into lines, run the loop
from a fresh `HOTFile` (but the parser object's persistent diagnostics and
decimal scale), finalize, and return the updated parser state together with
the `HOTFile`. -/
def parseContent (g : ParserGlobals) (content : Chars) : ParserGlobals × HOTFile :=
  let s0 : PState :=
    { core := { cdec := g.cdec, file := initHOTFile, curAgent := none, curDoc := none }
      warnings := g.warnings
      errors := g.errors }
  let s := finalizeParse (processLines s0 1 (splitLines content))
  (⟨s.errors, s.warnings, s.core.cdec⟩, s.core.file)

/-- A freshly initialised per-parse state (fresh parser, empty file). -/
def initPState : PState :=
  ⟨⟨2, initHOTFile, none, none⟩, [], []⟩

/-- The 3-character prefix that the dispatch of `parse_content` sees for an
input line (after CR/LF stripping and padding). -/
def linePrefix3 (l : Chars) : Chars := (padTo 136 (rstripNL l)).take 3

/-- Zero/default totals of an `Agent` (the `Agent()` dataclass defaults). -/
def agentZeroTotals (a : Agent) : Prop :=
  a.total_fare = 0 ∧ a.total_tax = 0 ∧ a.total_amount = 0 ∧
  a.net_remit = 0 ∧ a.document_count = 0

/-- Zero/default totals of a `HOTFile` (the `HOTFile()` dataclass defaults). -/
def fileZeroTotals (f : HOTFile) : Prop :=
  f.total_fare = 0 ∧ f.total_tax = 0 ∧ f.total_amount = 0 ∧
  f.net_remit = 0 ∧ f.total_documents = 0

/-- Invariant: every totals field anywhere in the state still holds its
dataclass default. -/
def noTotalsInv (c : Core) : Prop :=
  fileZeroTotals c.file ∧ (∀ a ∈ c.file.agents, agentZeroTotals a) ∧
  (∀ a, c.curAgent = some a → agentZeroTotals a)

/-- The two characters of `n` printed with a leading zero (`%02d`), for
building six-digit date strings. -/
def twoDigitChars (n : Nat) : Chars :=
  [Char.ofNat (48 + n / 10), Char.ofNat (48 + n % 10)]

/-- A DDMMYY date string built from numeric day, month and two-digit year. -/
def sixDigitChars (dd mm yy : Nat) : Chars :=
  twoDigitChars dd ++ twoDigitChars mm ++ twoDigitChars yy

/-- Concrete content: one agent header, one document-identification record
with document number `1234567890123`, one amounts record with an overpunched
positive fare of 10.00 at scale 2, and no totals records. -/
def reconInput : Chars :=
  ("BOH0300000112345678" ++ "\n" ++ "BKS240000011234567890123" ++ "\n"
    ++ "BKS30000001ATRY200000000100\x7b").data

/-- Concrete content like `reconInput` but whose amounts record carries
currency-decimals digit 0, so parsing it mutates the parser's persistent
`_currency_decimals`. -/
def scaleInput : Chars :=
  ("BOH0300000112345678" ++ "\n" ++ "BKS240000011234567890123" ++ "\n"
    ++ "BKS30000001ATRY000000000100\x7b").data

/-- Concrete content: one agent header followed by a bare `BKS24` record
whose document-number field is blank. -/
def blankDocInput : Chars :=
  ("BOH0300000112345678" ++ "\n" ++ "BKS24").data

/-- Concrete content: a single amounts record with no preceding document. -/
def orphanAmountsInput : Chars := "BKS30000001ATRY200000000100\x7b".data

/-! ### Shared evaluation and list lemmas -/

lemma daysInMonth_le (y m : Nat) : daysInMonth y m ≤ 31 := by
  unfold daysInMonth
  split
  · split <;> omega
  · split <;> omega

lemma digitChar_isDigit (k : Nat) (h : k ≤ 9) :
    (Char.ofNat (48 + k)).isDigit = true := by
  interval_cases k <;> decide

lemma digitChar_not_space (k : Nat) (h : k ≤ 9) :
    isPySpace (Char.ofNat (48 + k)) = false := by
  interval_cases k <;> decide

lemma digitChar_toNat (k : Nat) (h : k ≤ 9) :
    (Char.ofNat (48 + k)).toNat = 48 + k := by
  interval_cases k <;> decide

lemma digitChar_eq_zero_iff (k : Nat) (h : k ≤ 9) :
    Char.ofNat (48 + k) = '0' ↔ k = 0 := by
  interval_cases k <;> decide

lemma rstripWS_append_last (l : Chars) (c : Char) (h : isPySpace c = false) :
    rstripWS (l ++ [c]) = l ++ [c] := by
  unfold rstripWS
  rw [List.reverse_append]
  simp [List.dropWhile_cons, h]

lemma pyStrip_cons_append (c : Char) (m : Chars) (d : Char)
    (h1 : isPySpace c = false) (h2 : isPySpace d = false) :
    pyStrip (c :: (m ++ [d])) = c :: (m ++ [d]) := by
  unfold pyStrip
  rw [List.dropWhile_cons]
  simp only [h1, Bool.false_eq_true, if_false]
  exact rstripWS_append_last (c :: m) d h2

lemma pyStrip_nil_of_all (l : Chars) (h : l.all isPySpace = true) :
    pyStrip l = [] := by
  have h' : l.dropWhile isPySpace = [] := by
    rw [List.dropWhile_eq_nil_iff]
    exact fun x hx => List.all_eq_true.mp h x hx
  simp [pyStrip, h', rstripWS]

lemma pyStrip_cons_ne_nil (c : Char) (t : Chars) (h : isPySpace c = false) :
    pyStrip (c :: t) ≠ [] := by
  unfold pyStrip rstripWS
  rw [List.dropWhile_cons]
  simp only [h, Bool.false_eq_true, if_false]
  intro hnil
  rw [List.reverse_eq_nil_iff, List.dropWhile_eq_nil_iff] at hnil
  have hc := hnil c (by simp)
  rw [h] at hc
  exact Bool.false_ne_true hc

lemma rstripNL_cons_of (c : Char) (t : Chars) (h : (c = '\r' || c = '\n') = false) :
    rstripNL (c :: t) = c :: rstripNL t := by
  unfold rstripNL
  rw [List.reverse_cons]
  by_cases he : (t.reverse.dropWhile (fun x => x = '\r' || x = '\n')) = []
  · simp [List.dropWhile_append, he, List.dropWhile_cons, h]
  · simp [List.dropWhile_append, he, List.dropWhile_cons, h]

lemma padTo_cons (n : Nat) (c : Char) (t : Chars) :
    ∃ t2, padTo n (c :: t) = c :: t2 := by
  unfold padTo
  split
  · exact ⟨t ++ List.replicate (n - (c :: t).length) ' ', rfl⟩
  · exact ⟨t, rfl⟩

/-! ### Claim C3 -/

/-- Claim C3 as stated is false on the code: in `_parse_signed_numeric` the
overpunch letter `I` is substituted by the digit 9 (and `R` by 9 negative),
so `"0000012345I"` at scale 2 decodes to 1234.59, not 123.45, and the `R`
variant to -1234.59, not -123.45. -/
theorem c3_counterexample :
    parseSignedNumeric "0000012345I".data 2 ≠ (123.45 : Rat) ∧
    parseSignedNumeric "0000012345R".data 2 ≠ (-123.45 : Rat) := by
  constructor
  · have h : parseSignedNumeric "0000012345I".data 2
        = ((123459 : Nat) : Rat) / (10 : Rat) ^ (2 : Nat) := rfl
    rw [h]
    norm_num
  · have h : parseSignedNumeric "0000012345R".data 2
        = -(((123459 : Nat) : Rat) / (10 : Rat) ^ (2 : Nat)) := rfl
    rw [h]
    norm_num

/-- Claim C3 (amended): decoding the signed-numeric value `"0000012345I"` at
decimal scale 2 yields exactly 1234.59 (overpunch `I` contributes the digit 9
with positive sign), and the variant with final character `R` yields exactly
-1234.59. -/
theorem c3_theorem :
    parseSignedNumeric "0000012345I".data 2 = (1234.59 : Rat) ∧
    parseSignedNumeric "0000012345R".data 2 = (-1234.59 : Rat) := by
  constructor
  · have h : parseSignedNumeric "0000012345I".data 2
        = ((123459 : Nat) : Rat) / (10 : Rat) ^ (2 : Nat) := rfl
    rw [h]
    norm_num
  · have h : parseSignedNumeric "0000012345R".data 2
        = -(((123459 : Nat) : Rat) / (10 : Rat) ^ (2 : Nat)) := rfl
    rw [h]
    norm_num

/-! ### Claim C7 -/

/-- Claim C7 as stated is false on the code: `_parse_date_ddmmyy` delegates
two-digit years to `strptime`'s `%y`, which pivots at 69, not 50 — so
`"010160"` decodes to 2060-01-01 (the claim predicts 1960) — and short
inputs are rescued by `zfill(6)` rather than rejected — so the 5-digit
`"10121"` decodes to 2021-01-01 (the claim predicts none) — and `strptime`
validates days against the real calendar, so `"310461"` (31 April) is not
accepted even though its day lies in [1,31] and its month in [1,12]. -/
theorem c7_counterexample :
    parseDateChars "010160".data = some ⟨2060, 1, 1⟩ ∧
    parseDateChars "010160".data ≠ some ⟨1960, 1, 1⟩ ∧
    parseDateChars "10121".data = some ⟨2021, 1, 1⟩ ∧
    parseDateChars "310461".data = none :=
  ⟨by decide, by decide, by decide, by decide⟩

/-- Claim C7 (amended): for day-month-year input, any day/month pair valid
for the real calendar of the pivoted year is accepted by the first
(day-month-year) interpretation, and two-digit years expand with the
`strptime` pivot at 69: years 00-68 map to the 2000s, years 69-99 to the
1900s.  (Inputs shorter than six digits are first zero-padded to six;
year-month-day remains the fallback interpretation.) -/
theorem c7_theorem (dd mm yy : Nat) (hm1 : 1 ≤ mm) (hm2 : mm ≤ 12)
    (hd1 : 1 ≤ dd) (hd2 : dd ≤ daysInMonth (pivotYear yy) mm) (hy : yy ≤ 99) :
    parseDateChars (sixDigitChars dd mm yy) = some ⟨pivotYear yy, mm, dd⟩ := by
  have hdd31 : dd ≤ 31 := le_trans hd2 (daysInMonth_le _ _)
  have q1 : dd / 10 ≤ 9 := by omega
  have q2 : dd % 10 ≤ 9 := by omega
  have q3 : mm / 10 ≤ 9 := by omega
  have q4 : mm % 10 ≤ 9 := by omega
  have q5 : yy / 10 ≤ 9 := by omega
  have q6 : yy % 10 ≤ 9 := by omega
  have hstrip : pyStrip (sixDigitChars dd mm yy) = sixDigitChars dd mm yy := by
    have hps := pyStrip_cons_append (Char.ofNat (48 + dd / 10))
      [Char.ofNat (48 + dd % 10), Char.ofNat (48 + mm / 10),
       Char.ofNat (48 + mm % 10), Char.ofNat (48 + yy / 10)]
      (Char.ofNat (48 + yy % 10))
      (digitChar_not_space _ q1) (digitChar_not_space _ q6)
    simpa [sixDigitChars, twoDigitChars] using hps
  have hlen : (sixDigitChars dd mm yy).length = 6 := by
    simp [sixDigitChars, twoDigitChars]
  have hzfill : pyZfill 6 (sixDigitChars dd mm yy) = sixDigitChars dd mm yy := by
    unfold pyZfill
    rw [hlen]
    simp
  have hnz : sixDigitChars dd mm yy ≠ ['0', '0', '0', '0', '0', '0'] := by
    simp only [sixDigitChars, twoDigitChars, List.cons_append, List.nil_append,
      List.cons.injEq, ne_eq]
    intro h0
    have e1 : dd / 10 = 0 := (digitChar_eq_zero_iff _ q1).mp h0.1
    have e2 : dd % 10 = 0 := (digitChar_eq_zero_iff _ q2).mp h0.2.1
    omega
  have hsix : sixDigitChars dd mm yy =
      [Char.ofNat (48 + dd / 10), Char.ofNat (48 + dd % 10),
       Char.ofNat (48 + mm / 10), Char.ofNat (48 + mm % 10),
       Char.ofNat (48 + yy / 10), Char.ofNat (48 + yy % 10)] := rfl
  have hvd : twoDigitVal (Char.ofNat (48 + dd / 10)) (Char.ofNat (48 + dd % 10))
      = some dd := by
    unfold twoDigitVal
    rw [digitChar_isDigit _ q1, digitChar_isDigit _ q2,
      digitChar_toNat _ q1, digitChar_toNat _ q2]
    simp only [Bool.and_self, if_true]
    congr 1
    omega
  have hvm : twoDigitVal (Char.ofNat (48 + mm / 10)) (Char.ofNat (48 + mm % 10))
      = some mm := by
    unfold twoDigitVal
    rw [digitChar_isDigit _ q3, digitChar_isDigit _ q4,
      digitChar_toNat _ q3, digitChar_toNat _ q4]
    simp only [Bool.and_self, if_true]
    congr 1
    omega
  have hvy : twoDigitVal (Char.ofNat (48 + yy / 10)) (Char.ofNat (48 + yy % 10))
      = some yy := by
    unfold twoDigitVal
    rw [digitChar_isDigit _ q5, digitChar_isDigit _ q6,
      digitChar_toNat _ q5, digitChar_toNat _ q6]
    simp only [Bool.and_self, if_true]
    congr 1
    omega
  have hdmy : strptimeDMY (sixDigitChars dd mm yy) = some ⟨pivotYear yy, mm, dd⟩ := by
    rw [hsix]
    simp only [strptimeDMY]
    rw [hvd, hvm, hvy]
    simp only [Option.bind_eq_bind, Option.some_bind]
    unfold mkValidDate
    rw [if_pos ⟨hm1, hm2, hd1, hd2⟩]
  unfold parseDateChars
  rw [hstrip, hzfill]
  rw [if_neg (by
    push_neg
    refine ⟨?_, ?_, hnz⟩
    · intro hnil
      rw [hnil] at hlen
      simp at hlen
    · rw [hlen])]
  rw [hdmy]

/-- Witness for `c7_theorem` at day 1, month 1, year digits 60 (which the
original claim would have sent to 1960). -/
theorem c7_witness :
    (1 ≤ 1 ∧ 1 ≤ 12 ∧ 1 ≤ 1 ∧ 1 ≤ daysInMonth (pivotYear 60) 1 ∧ 60 ≤ 99) ∧
    parseDateChars (sixDigitChars 1 1 60) = some ⟨pivotYear 60, 1, 1⟩ :=
  ⟨⟨by decide, by decide, by decide, by decide, by decide⟩,
   c7_theorem 1 1 60 (by decide) (by decide) (by decide) (by decide) (by decide)⟩

/-! ### Claim C10 -/

/-- Claim C10 (confirmed): a line whose first character is a space, or whose
leading 5-character identifier consists only of blanks, is skipped silently —
the entire parser state (model, current cursors, warnings and errors) is
returned unchanged, even for a full 136-character record. -/
theorem c10_theorem (s : PState) (i : Nat) (l : Chars)
    (h : l.head? = some ' ' ∨
      ((padTo 136 (rstripNL l)).take 5).all isPySpace = true) :
    processLine s i l = s := by
  unfold processLine
  by_cases hskip : rstripNL l = [] ∨ (rstripNL l).all isPySpace
  · rw [if_pos hskip]
  · rw [if_neg hskip]
    unfold handleRecord
    rw [if_pos ?_]
    rcases h with h | h
    · right
      rcases l with _ | ⟨c, t⟩
      · simp at h
      · have hc : c = ' ' := by simpa using h
        subst hc
        rw [rstripNL_cons_of ' ' t (by decide)]
        obtain ⟨t2, ht2⟩ := padTo_cons 136 ' ' (rstripNL t)
        rw [ht2]
        simp
    · left
      exact pyStrip_nil_of_all _ h

/-- Witness for `c10_theorem`: a full record line starting with a space is
skipped without any state change. -/
theorem c10_witness :
    ((" BOH0300000112345678".data.head? = some ' ' ∨
      ((padTo 136 (rstripNL " BOH0300000112345678".data)).take 5).all isPySpace
        = true) ∧
      processLine initPState 3 " BOH0300000112345678".data = initPState) :=
  ⟨Or.inl (by decide), c10_theorem initPState 3 _ (Or.inl (by decide))⟩

/-! ### Claim C4 -/

/-- Claim C4 (confirmed): a line whose leading 5-character identifier
resolves to no layout (no exact match, no prefix match, not the `BKS`
fallback) and that is not blank-skipped produces exactly one warning naming
the identifier and the 1-based line number, and leaves everything else —
model, cursors, raw records, errors — unchanged. -/
theorem c4_theorem (s : PState) (i : Nat) (line : Chars)
    (hkey : getSpecKey (line.take 5) = none)
    (h1 : pyStrip (line.take 5) ≠ [])
    (h2 : (line.take 5).head? ≠ some ' ') :
    handleRecord s i line =
      { s with warnings := s.warnings ++ [unknownWarning i (line.take 5)] } := by
  unfold handleRecord
  rw [if_neg (by
    rintro (hc | hc)
    · exact h1 hc
    · exact h2 hc)]
  unfold parseRecord
  rw [hkey]

/-- Witness for `c4_theorem` on the unregistered identifier `ZZZZZ` at line
7: the single recorded warning is
`Line 7: Unknown record type 'ZZZZZ'`. -/
theorem c4_witness :
    (getSpecKey ("ZZZZZ".data.take 5) = none ∧
      pyStrip ("ZZZZZ".data.take 5) ≠ [] ∧
      ("ZZZZZ".data.take 5).head? ≠ some ' ') ∧
    handleRecord initPState 7 "ZZZZZ".data =
      { initPState with
        warnings := initPState.warnings ++ [unknownWarning 7 ("ZZZZZ".data.take 5)] } :=
  ⟨⟨by decide, by decide, by decide⟩,
   c4_theorem initPState 7 "ZZZZZ".data (by decide) (by decide) (by decide)⟩

/-! ### Claim C9 -/

/-- Claim C9 (confirmed): on a `BKS30` amounts record processed while a
document is pending and carrying a currency-decimals digit `d ≤ 4`
(the field is one digit, so `0 ≤ d ≤ 4` is `d ≤ 4`), the signed amounts of
that same record — here the fare — are decoded with the decimal scale that
was in effect before the record (`_parse_record` runs before
`_process_amounts`), while the parser's scale for subsequent records becomes
`d`. -/
theorem c9_theorem (s : PState) (i : Nat) (line : Chars) (d : TicketDocument)
    (hdoc : s.core.curDoc = some d)
    (h5 : line.take 5 = "BKS30".data)
    (hdec : parseNumeric (extractRange line 16 1) ≤ 4) :
    ((handleRecord s i line).core.curDoc.map (fun d2 => d2.fare_amount)
        = some (parseSignedNumeric (extractRange line 17 12) s.core.cdec)) ∧
    (handleRecord s i line).core.cdec = parseNumeric (extractRange line 16 1) := by
  have hpr : parseRecord line "BKS30".data s.core.cdec
      = some ⟨"BKS30".data, "BKS30", line,
          specBKS30.map (fun fs => (fs.name, decodeField line s.core.cdec fs))⟩ := by
    unfold parseRecord
    rw [show getSpecKey "BKS30".data = some "BKS30" from by decide]
    rfl
  unfold handleRecord
  rw [h5]
  rw [if_neg (by decide)]
  rw [hpr]
  dsimp only
  unfold dispatch
  dsimp only
  rw [show ("BKS30".data.take 3) = "BKS".data from rfl]
  rw [if_neg (by decide), if_neg (by decide), if_neg (by decide),
    if_neg (by decide), if_pos rfl]
  rw [if_neg (by
    rintro (hc | hc)
    · exact absurd hc (by decide)
    · exact absurd hc (by
        rw [show isDocumentRecord ⟨"BKS30".data, "BKS30", line,
          specBKS30.map (fun fs => (fs.name, decodeField line s.core.cdec fs))⟩
          = false from rfl]
        decide))]
  rw [hdoc]
  dsimp only
  rw [if_pos rfl]
  constructor
  · dsimp only [processAmounts]
    rfl
  · dsimp only [processAmounts]
    rw [show (Parsed.getNat ⟨"BKS30".data, "BKS30", line,
      specBKS30.map (fun fs => (fs.name, decodeField line s.core.cdec fs))⟩
      "currency_decimals") = parseNumeric (extractRange line 16 1) from rfl]
    rw [if_pos hdec]

/-- Witness for `c9_theorem`: a concrete `BKS30` line with decimals digit 2,
processed while a fresh document is pending. -/
theorem c9_witness :
    (({ initPState with
        core := { initPState.core with curDoc := some initDocument } } :
          PState).core.curDoc = some initDocument ∧
      orphanAmountsInput.take 5 = "BKS30".data ∧
      parseNumeric (extractRange orphanAmountsInput 16 1) ≤ 4) ∧
    (((handleRecord { initPState with
        core := { initPState.core with curDoc := some initDocument } } 1
        orphanAmountsInput).core.curDoc.map (fun d2 => d2.fare_amount)
        = some (parseSignedNumeric (extractRange orphanAmountsInput 17 12)
            ({ initPState with
               core := { initPState.core with curDoc := some initDocument } } :
              PState).core.cdec)) ∧
      (handleRecord { initPState with
        core := { initPState.core with curDoc := some initDocument } } 1
        orphanAmountsInput).core.cdec
        = parseNumeric (extractRange orphanAmountsInput 16 1)) :=
  ⟨⟨rfl, by decide, by decide⟩,
   c9_theorem _ 1 orphanAmountsInput initDocument rfl (by decide) (by decide)⟩

/-! ### Claim C6 -/

lemma take3_shape (l : Chars) (x y z : Char) (h : l.take 3 = [x, y, z]) :
    ∃ t, l = x :: y :: z :: t := by
  match l with
  | [] => simp at h
  | [a] => simp at h
  | [a, b] => simp at h
  | a :: b :: c :: t =>
    simp only [List.take_succ_cons, List.take_zero, List.cons.injEq, and_true]
      at h
    exact ⟨t, by rw [h.1, h.2.1, h.2.2]⟩

lemma parseRecord_of_key (line rid : Chars) (cdec : Nat) (k : String)
    (specs : List FieldSpec) (hk : getSpecKey rid = some k)
    (hl : RECORD_SPECS.lookup k = some specs) :
    parseRecord line rid cdec
      = some ⟨rid, k, line, specs.map (fun fs => (fs.name, decodeField line cdec fs))⟩ := by
  unfold parseRecord
  rw [hk]
  dsimp only
  rw [hl]

/-- Claim C6 as stated is false on the code: an amounts record arriving with
no pending document is dropped silently — no warning is recorded (the
`elif` guards simply fail), and the model keeps no agent. -/
theorem c6_counterexample :
    (parseContent initGlobals orphanAmountsInput).1.warnings = [] ∧
    (parseContent initGlobals orphanAmountsInput).2.agents = [] :=
  ⟨by decide, by decide⟩

/-- Claim C6 (amended): a record of the amounts / tax / commission /
itinerary-segment / passenger / payment families (including the `BKF`
fare-record alias of amounts) arriving while no document is pending is a
no-op on the model — agents, cursors, decimal scale, metadata, and both
diagnostic lists are unchanged, with no warning recorded; the decoded record
is only retained in the debug `raw_records` list. -/
theorem c6_theorem (s : PState) (i : Nat) (line : Chars)
    (hdoc : s.core.curDoc = none)
    (hfam :
      (line.take 3 = "BKI".data ∧ getSpecKey (line.take 5) = some "BKI63") ∨
      (line.take 3 = "BKP".data ∧ getSpecKey (line.take 5) = some "BKP84") ∨
      (line.take 3 = "BKF".data ∧ getSpecKey (line.take 5) = some "BKS30") ∨
      (line.take 3 = "BAR".data ∧ getSpecKey (line.take 5) = some "BAR64") ∨
      (line.take 3 = "BKS".data ∧
        (getSpecKey (line.take 5) = some "BKS30" ∨
         getSpecKey (line.take 5) = some "BKS31" ∨
         getSpecKey (line.take 5) = some "BKS39"))) :
    ∃ p : Parsed, handleRecord s i line =
      { s with core := { s.core with file :=
          { s.core.file with
            raw_records := s.core.file.raw_records ++ [p] } } } := by
  rcases hfam with ⟨h3, hk⟩ | ⟨h3, hk⟩ | ⟨h3, hk⟩ | ⟨h3, hk⟩ | ⟨h3, hk⟩
  · obtain ⟨t, ht⟩ := take3_shape line 'B' 'K' 'I' h3
    subst ht
    have hrid : ('B' :: 'K' :: 'I' :: t).take 5 = 'B' :: 'K' :: 'I' :: t.take 2 := by
      simp [List.take_succ_cons]
    refine ⟨⟨List.take 5 ('B' :: 'K' :: 'I' :: t), "BKI63", 'B' :: 'K' :: 'I' :: t,
      specBKI63.map (fun fs => (fs.name, decodeField ('B' :: 'K' :: 'I' :: t) s.core.cdec fs))⟩, ?_⟩
    unfold handleRecord
    rw [if_neg (by
      rw [hrid]
      rintro (hc | hc)
      · exact pyStrip_cons_ne_nil _ _ (by decide) hc
      · simp at hc)]
    rw [parseRecord_of_key _ _ _ "BKI63" specBKI63 hk rfl]
    dsimp only
    unfold dispatch
    dsimp only
    rw [show ((('B' :: 'K' :: 'I' :: t).take 5).take 3) = ['B', 'K', 'I'] from by
      rw [hrid]; simp [List.take_succ_cons]]
    rw [if_neg (by decide), if_neg (by decide), if_neg (by decide),
      if_neg (by decide), if_neg (by decide), if_pos rfl]
    rw [hdoc]
  · obtain ⟨t, ht⟩ := take3_shape line 'B' 'K' 'P' h3
    subst ht
    have hrid : ('B' :: 'K' :: 'P' :: t).take 5 = 'B' :: 'K' :: 'P' :: t.take 2 := by
      simp [List.take_succ_cons]
    refine ⟨⟨List.take 5 ('B' :: 'K' :: 'P' :: t), "BKP84", 'B' :: 'K' :: 'P' :: t,
      specBKP84.map (fun fs => (fs.name, decodeField ('B' :: 'K' :: 'P' :: t) s.core.cdec fs))⟩, ?_⟩
    unfold handleRecord
    rw [if_neg (by
      rw [hrid]
      rintro (hc | hc)
      · exact pyStrip_cons_ne_nil _ _ (by decide) hc
      · simp at hc)]
    rw [parseRecord_of_key _ _ _ "BKP84" specBKP84 hk rfl]
    dsimp only
    unfold dispatch
    dsimp only
    rw [show ((('B' :: 'K' :: 'P' :: t).take 5).take 3) = ['B', 'K', 'P'] from by
      rw [hrid]; simp [List.take_succ_cons]]
    rw [if_neg (by decide), if_neg (by decide), if_neg (by decide),
      if_neg (by decide), if_neg (by decide), if_neg (by decide),
      if_neg (by decide), if_pos rfl]
    rw [hdoc]
  · obtain ⟨t, ht⟩ := take3_shape line 'B' 'K' 'F' h3
    subst ht
    have hrid : ('B' :: 'K' :: 'F' :: t).take 5 = 'B' :: 'K' :: 'F' :: t.take 2 := by
      simp [List.take_succ_cons]
    refine ⟨⟨List.take 5 ('B' :: 'K' :: 'F' :: t), "BKS30", 'B' :: 'K' :: 'F' :: t,
      specBKS30.map (fun fs => (fs.name, decodeField ('B' :: 'K' :: 'F' :: t) s.core.cdec fs))⟩, ?_⟩
    unfold handleRecord
    rw [if_neg (by
      rw [hrid]
      rintro (hc | hc)
      · exact pyStrip_cons_ne_nil _ _ (by decide) hc
      · simp at hc)]
    rw [parseRecord_of_key _ _ _ "BKS30" specBKS30 hk rfl]
    dsimp only
    unfold dispatch
    dsimp only
    rw [show ((('B' :: 'K' :: 'F' :: t).take 5).take 3) = ['B', 'K', 'F'] from by
      rw [hrid]; simp [List.take_succ_cons]]
    rw [if_neg (by decide), if_neg (by decide), if_neg (by decide),
      if_neg (by decide), if_neg (by decide), if_neg (by decide),
      if_neg (by decide), if_neg (by decide), if_pos rfl]
    rw [hdoc]
  · obtain ⟨t, ht⟩ := take3_shape line 'B' 'A' 'R' h3
    subst ht
    have hrid : ('B' :: 'A' :: 'R' :: t).take 5 = 'B' :: 'A' :: 'R' :: t.take 2 := by
      simp [List.take_succ_cons]
    refine ⟨⟨List.take 5 ('B' :: 'A' :: 'R' :: t), "BAR64", 'B' :: 'A' :: 'R' :: t,
      specBAR64.map (fun fs => (fs.name, decodeField ('B' :: 'A' :: 'R' :: t) s.core.cdec fs))⟩, ?_⟩
    unfold handleRecord
    rw [if_neg (by
      rw [hrid]
      rintro (hc | hc)
      · exact pyStrip_cons_ne_nil _ _ (by decide) hc
      · simp at hc)]
    rw [parseRecord_of_key _ _ _ "BAR64" specBAR64 hk rfl]
    dsimp only
    unfold dispatch
    dsimp only
    rw [show ((('B' :: 'A' :: 'R' :: t).take 5).take 3) = ['B', 'A', 'R'] from by
      rw [hrid]; simp [List.take_succ_cons]]
    rw [if_neg (by decide), if_neg (by decide), if_neg (by decide),
      if_neg (by decide), if_neg (by decide), if_neg (by decide),
      if_pos rfl]
    rw [hdoc]
  · obtain ⟨t, ht⟩ := take3_shape line 'B' 'K' 'S' h3
    subst ht
    have hrid : ('B' :: 'K' :: 'S' :: t).take 5 = 'B' :: 'K' :: 'S' :: t.take 2 := by
      simp [List.take_succ_cons]
    have hpre : ((('B' :: 'K' :: 'S' :: t).take 5).take 3) = ['B', 'K', 'S'] := by
      rw [hrid]; simp [List.take_succ_cons]
    have hskip : ¬(pyStrip (('B' :: 'K' :: 'S' :: t).take 5) = [] ∨
        (('B' :: 'K' :: 'S' :: t).take 5).head? = some ' ') := by
      rw [hrid]
      rintro (hc | hc)
      · exact pyStrip_cons_ne_nil _ _ (by decide) hc
      · simp at hc
    rcases hk with hk | hk | hk
    · refine ⟨⟨List.take 5 ('B' :: 'K' :: 'S' :: t), "BKS30", 'B' :: 'K' :: 'S' :: t,
        specBKS30.map (fun fs => (fs.name, decodeField ('B' :: 'K' :: 'S' :: t) s.core.cdec fs))⟩, ?_⟩
      unfold handleRecord
      rw [if_neg hskip]
      rw [parseRecord_of_key _ _ _ "BKS30" specBKS30 hk rfl]
      dsimp only
      unfold dispatch
      dsimp only
      rw [hpre]
      rw [if_neg (by decide), if_neg (by decide), if_neg (by decide),
        if_neg (by decide), if_pos rfl]
      rw [if_neg (by
        rintro (hc | hc)
        · exact absurd hc (by decide)
        · exact absurd hc (by
            rw [show isDocumentRecord ⟨('B' :: 'K' :: 'S' :: t).take 5, "BKS30",
              'B' :: 'K' :: 'S' :: t, specBKS30.map
                (fun fs => (fs.name, decodeField ('B' :: 'K' :: 'S' :: t) s.core.cdec fs))⟩
              = false from rfl]
            decide))]
      rw [hdoc]
    · refine ⟨⟨List.take 5 ('B' :: 'K' :: 'S' :: t), "BKS31", 'B' :: 'K' :: 'S' :: t,
        specBKS31.map (fun fs => (fs.name, decodeField ('B' :: 'K' :: 'S' :: t) s.core.cdec fs))⟩, ?_⟩
      unfold handleRecord
      rw [if_neg hskip]
      rw [parseRecord_of_key _ _ _ "BKS31" specBKS31 hk rfl]
      dsimp only
      unfold dispatch
      dsimp only
      rw [hpre]
      rw [if_neg (by decide), if_neg (by decide), if_neg (by decide),
        if_neg (by decide), if_pos rfl]
      rw [if_neg (by
        rintro (hc | hc)
        · exact absurd hc (by decide)
        · exact absurd hc (by
            rw [show isDocumentRecord ⟨('B' :: 'K' :: 'S' :: t).take 5, "BKS31",
              'B' :: 'K' :: 'S' :: t, specBKS31.map
                (fun fs => (fs.name, decodeField ('B' :: 'K' :: 'S' :: t) s.core.cdec fs))⟩
              = false from rfl]
            decide))]
      rw [hdoc]
    · refine ⟨⟨List.take 5 ('B' :: 'K' :: 'S' :: t), "BKS39", 'B' :: 'K' :: 'S' :: t,
        specBKS39.map (fun fs => (fs.name, decodeField ('B' :: 'K' :: 'S' :: t) s.core.cdec fs))⟩, ?_⟩
      unfold handleRecord
      rw [if_neg hskip]
      rw [parseRecord_of_key _ _ _ "BKS39" specBKS39 hk rfl]
      dsimp only
      unfold dispatch
      dsimp only
      rw [hpre]
      rw [if_neg (by decide), if_neg (by decide), if_neg (by decide),
        if_neg (by decide), if_pos rfl]
      rw [if_neg (by
        rintro (hc | hc)
        · exact absurd hc (by decide)
        · exact absurd hc (by
            rw [show isDocumentRecord ⟨('B' :: 'K' :: 'S' :: t).take 5, "BKS39",
              'B' :: 'K' :: 'S' :: t, specBKS39.map
                (fun fs => (fs.name, decodeField ('B' :: 'K' :: 'S' :: t) s.core.cdec fs))⟩
              = false from rfl]
            decide))]
      rw [hdoc]

/-- Witness for `c6_theorem`: a lone tax record (`BKS31`) with no pending
document leaves everything but `raw_records` untouched. -/
theorem c6_witness :
    (initPState.core.curDoc = none ∧
      ("BKS31".data.take 3 = "BKS".data ∧
        getSpecKey ("BKS31".data.take 5) = some "BKS31")) ∧
    ∃ p : Parsed, handleRecord initPState 1 "BKS31".data =
      { initPState with core := { initPState.core with file :=
          { initPState.core.file with
            raw_records := initPState.core.file.raw_records ++ [p] } } } :=
  ⟨⟨rfl, by decide, by decide⟩,
   c6_theorem initPState 1 "BKS31".data rfl
     (Or.inr (Or.inr (Or.inr (Or.inr ⟨by decide, Or.inr (Or.inl (by decide))⟩))))⟩

/-! ### Diagnostics threading (claims C2 and C5) -/

lemma handleRecord_diag (c : Core) (w e : List String) (i : Nat) (l : Chars) :
    handleRecord ⟨c, w, e⟩ i l =
      ⟨(handleRecord ⟨c, [], []⟩ i l).core,
       w ++ (handleRecord ⟨c, [], []⟩ i l).warnings,
       e ++ (handleRecord ⟨c, [], []⟩ i l).errors⟩ := by
  unfold handleRecord
  dsimp only
  split
  · simp
  · split <;> simp

lemma processLine_diag (c : Core) (w e : List String) (i : Nat) (l : Chars) :
    processLine ⟨c, w, e⟩ i l =
      ⟨(processLine ⟨c, [], []⟩ i l).core,
       w ++ (processLine ⟨c, [], []⟩ i l).warnings,
       e ++ (processLine ⟨c, [], []⟩ i l).errors⟩ := by
  unfold processLine
  dsimp only
  split
  · simp
  · exact handleRecord_diag c w e i _

lemma processLines_diag (c : Core) (w e : List String) (i : Nat) (ls : List Chars) :
    processLines ⟨c, w, e⟩ i ls =
      ⟨(processLines ⟨c, [], []⟩ i ls).core,
       w ++ (processLines ⟨c, [], []⟩ i ls).warnings,
       e ++ (processLines ⟨c, [], []⟩ i ls).errors⟩ := by
  induction ls generalizing c w e i with
  | nil => simp [processLines]
  | cons l ls ih =>
    show processLines (processLine ⟨c, w, e⟩ i l) (i + 1) ls = _
    conv_rhs => rw [show processLines ⟨c, [], []⟩ i (l :: ls)
      = processLines (processLine ⟨c, [], []⟩ i l) (i + 1) ls from rfl]
    rw [processLine_diag c w e i l, ih]
    conv_rhs => rw [processLine_diag c [] [] i l, ih]
    simp

lemma finalizeParse_warnings (s : PState) :
    (finalizeParse s).warnings = s.warnings := rfl

lemma finalizeParse_errors (s : PState) :
    (finalizeParse s).errors = s.errors := rfl

lemma finalizeParse_core_diag (s : PState) :
    (finalizeParse s).core = (finalizeParse ⟨s.core, [], []⟩).core := rfl

/-! ### Claim C2 -/

lemma handleRecord_errors (s : PState) (i : Nat) (l : Chars) :
    (handleRecord s i l).errors = s.errors := by
  unfold handleRecord
  dsimp only
  split
  · rfl
  · split <;> rfl

lemma processLine_errors (s : PState) (i : Nat) (l : Chars) :
    (processLine s i l).errors = s.errors := by
  unfold processLine
  dsimp only
  split
  · rfl
  · exact handleRecord_errors s i _

lemma processLines_errors (s : PState) (i : Nat) (ls : List Chars) :
    (processLines s i ls).errors = s.errors := by
  induction ls generalizing s i with
  | nil => rfl
  | cons l ls ih =>
    show (processLines (processLine s i l) (i + 1) ls).errors = _
    rw [ih, processLine_errors]

/-- Claim C2 (confirmed): parsing never surfaces an error.  The embedding is
a total function — mirroring the source, where every fallible decode
(`Decimal`, `int`, `strptime`) is guarded by its own `try`/`except` and
resolves to `0`/`None` internally, so no exception can escape
`parse_content` — and the `self.errors` list is never appended to: for every
input and every starting parser state the errors list comes back exactly as
it went in (in particular, empty on a fresh parser).  The claim's
catch-and-record clause is therefore satisfied vacuously: no record ever
raises, no record's effects are ever discarded, and parsing always continues
to the end of input. -/
theorem c2_theorem (g : ParserGlobals) (content : Chars) :
    (parseContent g content).1.errors = g.errors := by
  unfold parseContent
  dsimp only
  rw [finalizeParse_errors, processLines_errors]

/-- Witness for `c2_theorem` (it has no premises, but a concrete instance is
still recorded): a fresh parse of the reconciliation example produces an
empty errors list. -/
theorem c2_witness : (parseContent initGlobals reconInput).1.errors = [] :=
  c2_theorem initGlobals reconInput

/-! ### Claim C5 -/

set_option maxRecDepth 400000 in
/-- Claim C5 as stated is false on the code: `parse_content` never resets
`self._currency_decimals`, so a second call on the same parser object can
decode the very same bytes differently.  On `scaleInput` (whose amounts
record sets the decimals digit to 0) the first parse decodes the fare at the
default scale 2 (10.00), while the second parse on the same parser decodes
it at the carried-over scale 0 (1000): the two ParsedFiles differ. -/
theorem c5_counterexample :
    ((parseContent initGlobals scaleInput).2.agents.map
      (fun a => a.documents.map fun d => d.fare_amount))
      = [[((1000 : Nat) : Rat) / (10 : Rat) ^ (2 : Nat)]] ∧
    ((parseContent (parseContent initGlobals scaleInput).1 scaleInput).2.agents.map
      (fun a => a.documents.map fun d => d.fare_amount))
      = [[((1000 : Nat) : Rat) / (10 : Rat) ^ (0 : Nat)]] ∧
    ((1000 : Nat) : Rat) / (10 : Rat) ^ (2 : Nat) = 10 ∧
    ((1000 : Nat) : Rat) / (10 : Rat) ^ (0 : Nat) = 1000 ∧
    (parseContent initGlobals scaleInput).2
      ≠ (parseContent (parseContent initGlobals scaleInput).1 scaleInput).2 := by
  refine ⟨rfl, rfl, by norm_num, by norm_num, ?_⟩
  intro heq
  have hmap := congrArg
    (fun f : HOTFile => f.agents.map (fun a => a.documents.map fun d => d.fare_amount))
    heq
  dsimp only at hmap
  rw [show ((parseContent initGlobals scaleInput).2.agents.map
      (fun a => a.documents.map fun d => d.fare_amount))
      = [[((1000 : Nat) : Rat) / (10 : Rat) ^ (2 : Nat)]] from rfl] at hmap
  rw [show ((parseContent (parseContent initGlobals scaleInput).1 scaleInput).2.agents.map
      (fun a => a.documents.map fun d => d.fare_amount))
      = [[((1000 : Nat) : Rat) / (10 : Rat) ^ (0 : Nat)]] from rfl] at hmap
  simp only [List.cons.injEq, and_true] at hmap
  have : (10 : Rat) = 1000 := by
    calc (10 : Rat) = ((1000 : Nat) : Rat) / (10 : Rat) ^ (2 : Nat) := by norm_num
    _ = ((1000 : Nat) : Rat) / (10 : Rat) ^ (0 : Nat) := hmap
    _ = 1000 := by norm_num
  norm_num at this

/-- Claim C5 (amended): fresh-parser invocations are deterministic, and the
ParsedFile is independent of whatever diagnostics have accumulated on the
parser object (new diagnostics are appended, in input order, after the
existing ones  — so diagnostics pile up across calls on one object); but the
result is only reproducible for the same starting decimal scale `k`: the
scale persists on the parser object across calls and can change the output
(see the counterexample). -/
theorem c5_theorem (content : Chars) (w e : List String) (k : Nat) :
    (parseContent ⟨e, w, k⟩ content).2 = (parseContent ⟨[], [], k⟩ content).2 ∧
    (parseContent ⟨e, w, k⟩ content).1.warnings
      = w ++ (parseContent ⟨[], [], k⟩ content).1.warnings ∧
    (parseContent ⟨e, w, k⟩ content).1.errors
      = e ++ (parseContent ⟨[], [], k⟩ content).1.errors := by
  unfold parseContent
  dsimp only
  rw [processLines_diag]
  refine ⟨?_, ?_, ?_⟩
  · rw [finalizeParse_core_diag]
    conv_rhs => rw [finalizeParse_core_diag]
  · rw [finalizeParse_warnings, finalizeParse_warnings]
  · rw [finalizeParse_errors, finalizeParse_errors]

/-! ### Claim C1 -/

lemma agentZeroTotals_officeHeader (p : Parsed) :
    agentZeroTotals (processOfficeHeader initAgent p) := ⟨rfl, rfl, rfl, rfl, rfl⟩

lemma dispatch_noTotals (c : Core) (p : Parsed)
    (h1 : p.recordId.take 3 ≠ "BOT".data)
    (h2 : p.recordId.take 3 ≠ "BFT".data)
    (hinv : noTotalsInv c) : noTotalsInv (dispatch c p) := by
  obtain ⟨hfile, hags, hcur⟩ := hinv
  unfold dispatch
  by_cases hBFH : p.recordId.take 3 = "BFH".data
  · rw [if_pos hBFH]
    exact ⟨hfile, hags, hcur⟩
  rw [if_neg hBFH]
  by_cases hBCH : p.recordId.take 3 = "BCH".data
  · rw [if_pos hBCH]
    exact ⟨hfile, hags, hcur⟩
  rw [if_neg hBCH]
  by_cases hBOH : p.recordId.take 3 = "BOH".data
  · rw [if_pos hBOH]
    rcases hd : c.curDoc with _ | d
    · try simp only [hd]
      try dsimp only
      rcases ha : c.curAgent with _ | a
      · try simp only [ha]
        try dsimp only
        exact ⟨hfile, hags, fun a' h =>
          (Option.some.inj h) ▸ agentZeroTotals_officeHeader p⟩
      · try simp only [ha]
        try dsimp only
        refine ⟨hfile, ?_, fun a' h =>
          (Option.some.inj h) ▸ agentZeroTotals_officeHeader p⟩
        intro a' ha'
        rcases List.mem_append.mp ha' with hmem | hmem
        · exact hags a' hmem
        · rw [List.mem_singleton.mp hmem]
          exact hcur a ha
    · try simp only [hd]
      try dsimp only
      rcases ha : c.curAgent with _ | a
      · try simp only [ha]
        try dsimp only
        exact ⟨hfile, hags, fun a' h =>
          (Option.some.inj h) ▸ agentZeroTotals_officeHeader p⟩
      · try simp only [ha]
        try dsimp only
        refine ⟨hfile, ?_, fun a' h =>
          (Option.some.inj h) ▸ agentZeroTotals_officeHeader p⟩
        intro a' ha'
        rcases List.mem_append.mp ha' with hmem | hmem
        · exact hags a' hmem
        · rw [List.mem_singleton.mp hmem]
          exact hcur a ha
  rw [if_neg hBOH]
  by_cases hBKT : p.recordId.take 3 = "BKT".data
  · rw [if_pos hBKT]
    exact ⟨hfile, hags, hcur⟩
  rw [if_neg hBKT]
  by_cases hBKS : p.recordId.take 3 = "BKS".data
  · rw [if_pos hBKS]
    by_cases hdoc24 : p.specKey = "BKS24" ∨ isDocumentRecord p = true
    · rw [if_pos hdoc24]
      rcases hd : c.curDoc with _ | d
      · try simp only [hd]
        try dsimp only
        exact ⟨hfile, hags, hcur⟩
      · try simp only [hd]
        try dsimp only
        rcases ha : c.curAgent with _ | a
        · try simp only [ha]
          try dsimp only
          exact ⟨hfile, hags, fun a' h => by simp at h⟩
        · try simp only [ha]
          try dsimp only
          exact ⟨hfile, hags, fun a' h =>
            (Option.some.inj h) ▸ hcur a ha⟩
    · rw [if_neg hdoc24]
      rcases hd : c.curDoc with _ | d
      · try simp only [hd]
        try dsimp only
        exact ⟨hfile, hags, hcur⟩
      · try simp only [hd]
        try dsimp only
        split_ifs <;> exact ⟨hfile, hags, hcur⟩
  rw [if_neg hBKS]
  by_cases hBKI : p.recordId.take 3 = "BKI".data
  · rw [if_pos hBKI]
    rcases hd : c.curDoc with _ | d <;> (try simp only [hd])
    · exact ⟨hfile, hags, hcur⟩
    · exact ⟨hfile, hags, hcur⟩
  rw [if_neg hBKI]
  by_cases hBAR : p.recordId.take 3 = "BAR".data
  · rw [if_pos hBAR]
    rcases hd : c.curDoc with _ | d <;> (try simp only [hd])
    · exact ⟨hfile, hags, hcur⟩
    · exact ⟨hfile, hags, hcur⟩
  rw [if_neg hBAR]
  by_cases hBKP : p.recordId.take 3 = "BKP".data
  · rw [if_pos hBKP]
    rcases hd : c.curDoc with _ | d <;> (try simp only [hd])
    · exact ⟨hfile, hags, hcur⟩
    · exact ⟨hfile, hags, hcur⟩
  rw [if_neg hBKP]
  by_cases hBKF : p.recordId.take 3 = "BKF".data
  · rw [if_pos hBKF]
    rcases hd : c.curDoc with _ | d
    · try simp only [hd]
      try dsimp only
      exact ⟨hfile, hags, hcur⟩
    · try dsimp only
      split_ifs <;> exact ⟨hfile, hags, hcur⟩
  rw [if_neg hBKF]
  rw [if_neg h1]
  by_cases hBCT : p.recordId.take 3 = "BCT".data
  · rw [if_pos hBCT]
    exact ⟨hfile, hags, hcur⟩
  rw [if_neg hBCT]
  rw [if_neg h2]
  exact ⟨hfile, hags, hcur⟩

lemma parseRecord_recordId (line rid : Chars) (cdec : Nat) (p : Parsed)
    (h : parseRecord line rid cdec = some p) : p.recordId = rid := by
  unfold parseRecord at h
  rcases hk : getSpecKey rid with _ | k
  · rw [hk] at h
    cases h
  · rw [hk] at h
    dsimp only at h
    rcases hl : RECORD_SPECS.lookup k with _ | specs
    · rw [hl] at h
      cases h
    · rw [hl] at h
      cases h
      rfl

lemma handleRecord_noTotals (s : PState) (i : Nat) (l : Chars)
    (h1 : l.take 3 ≠ "BOT".data) (h2 : l.take 3 ≠ "BFT".data)
    (hinv : noTotalsInv s.core) : noTotalsInv (handleRecord s i l).core := by
  unfold handleRecord
  dsimp only
  split
  · exact hinv
  · split
    · exact hinv
    · rename_i p heq
      refine dispatch_noTotals _ p ?_ ?_ hinv
      · rw [parseRecord_recordId _ _ _ _ heq, List.take_take,
          show min 3 5 = 3 from by decide]
        exact h1
      · rw [parseRecord_recordId _ _ _ _ heq, List.take_take,
          show min 3 5 = 3 from by decide]
        exact h2

lemma processLine_noTotals (s : PState) (i : Nat) (l : Chars)
    (h1 : linePrefix3 l ≠ "BOT".data) (h2 : linePrefix3 l ≠ "BFT".data)
    (hinv : noTotalsInv s.core) : noTotalsInv (processLine s i l).core := by
  unfold processLine
  dsimp only
  split
  · exact hinv
  · exact handleRecord_noTotals s i _ h1 h2 hinv

lemma processLines_noTotals (s : PState) (i : Nat) (ls : List Chars)
    (h : ∀ l ∈ ls, linePrefix3 l ≠ "BOT".data ∧ linePrefix3 l ≠ "BFT".data)
    (hinv : noTotalsInv s.core) : noTotalsInv (processLines s i ls).core := by
  induction ls generalizing s i with
  | nil => exact hinv
  | cons l ls ih =>
    exact ih _ _ (fun x hx => h x (List.mem_cons_of_mem _ hx))
      (processLine_noTotals s i l (h l (List.mem_cons_self _ _)).1
        (h l (List.mem_cons_self _ _)).2 hinv)

lemma finalizeParse_noTotals (s : PState) (hinv : noTotalsInv s.core) :
    fileZeroTotals (finalizeParse s).core.file ∧
    ∀ a ∈ (finalizeParse s).core.file.agents, agentZeroTotals a := by
  obtain ⟨hfile, hags, hcur⟩ := hinv
  unfold finalizeParse
  dsimp only
  rcases hd : s.core.curDoc with _ | d
  · try simp only [hd]
    try dsimp only
    rcases ha : s.core.curAgent with _ | a
    · try simp only [ha]
      try dsimp only
      exact ⟨hfile, hags⟩
    · try simp only [ha]
      try dsimp only
      split_ifs
      · exact ⟨hfile, hags⟩
      · refine ⟨hfile, ?_⟩
        intro a' ha'
        rcases List.mem_append.mp ha' with hmem | hmem
        · exact hags a' hmem
        · rw [List.mem_singleton.mp hmem]
          exact hcur a ha
  · try simp only [hd]
    try dsimp only
    rcases ha : s.core.curAgent with _ | a
    · try simp only [ha]
      try dsimp only
      exact ⟨hfile, hags⟩
    · try simp only [ha]
      try dsimp only
      split_ifs
      · exact ⟨hfile, hags⟩
      · refine ⟨hfile, ?_⟩
        intro a' ha'
        rcases List.mem_append.mp ha' with hmem | hmem
        · exact hags a' hmem
        · rw [List.mem_singleton.mp hmem]
          exact hcur a ha

set_option maxRecDepth 400000 in
/-- Claim C1 as stated is false on the code: no reconciliation is computed
anywhere.  On `reconInput` — one agent, one document, an overpunched fare of
10.00, and no explicit totals records — the finalized Agent's fare total is
the dataclass default 0 while the sum of its Documents' fare amounts is
10.00. -/
theorem c1_counterexample :
    ((parseContent initGlobals reconInput).2.agents.map
      (fun a => (a.total_fare, a.documents.map fun d => d.fare_amount)))
      = [((0 : Rat), [((1000 : Nat) : Rat) / (10 : Rat) ^ (2 : Nat)])] ∧
    ((1000 : Nat) : Rat) / (10 : Rat) ^ (2 : Nat) = 10 ∧
    (0 : Rat) ≠ 10 :=
  ⟨rfl, by norm_num, by norm_num⟩

/-- Claim C1 (amended): the parser performs no reconciliation at
finalization.  When the input contains no office-totals (`BOT`) and no
file-totals (`BFT`) records, every totals field keeps its dataclass default:
the ParsedFile totals are zero (fare, tax, amount, net remittance, document
count) and every finalized Agent's totals are zero with document count 0 —
regardless of the fare amounts carried by the owned Documents. -/
theorem c1_theorem (content : Chars)
    (h : ∀ l ∈ splitLines content,
      linePrefix3 l ≠ "BOT".data ∧ linePrefix3 l ≠ "BFT".data) :
    fileZeroTotals (parseContent initGlobals content).2 ∧
    ∀ a ∈ (parseContent initGlobals content).2.agents, agentZeroTotals a := by
  unfold parseContent
  dsimp only
  exact finalizeParse_noTotals _
    (processLines_noTotals _ 1 _ h
      ⟨⟨rfl, rfl, rfl, rfl, rfl⟩,
       fun a ha => absurd ha (List.not_mem_nil a),
       fun a ha => by cases ha⟩)

/-- Witness for `c1_theorem` on `reconInput` (no totals records present):
the final file and agent totals are all zero. -/
theorem c1_witness :
    (∀ l ∈ splitLines reconInput,
      linePrefix3 l ≠ "BOT".data ∧ linePrefix3 l ≠ "BFT".data) ∧
    (fileZeroTotals (parseContent initGlobals reconInput).2 ∧
      ∀ a ∈ (parseContent initGlobals reconInput).2.agents, agentZeroTotals a) :=
  ⟨by decide, c1_theorem reconInput (by decide)⟩

/-! ### Claim C8 -/

set_option maxRecDepth 400000 in
/-- Claim C8 as stated is false on the code: a started Document that never
received a non-empty document number is finalized into the model anyway.  On
`blankDocInput` (an agent header followed by a bare `BKS24` record whose
document-number field is blank) the final model contains one Agent owning
one Document whose `document_number` is the empty string. -/
theorem c8_counterexample :
    ((parseContent initGlobals blankDocInput).2.agents.map
      (fun a => a.documents.map fun d => d.document_number)) = [[""]] := by
  decide

/-- Claim C8 (amended): finalization is unconditional.  At end of input a
pending Document is appended to the pending Agent and the Agent is appended
to the file regardless of whether either carries a non-empty identifying
field; nothing is discarded (the only guard is the structural-equality
dedup `current_agent not in hot_file.agents`, covered by the `hnotin`
premise; a pending Document with no pending Agent is dropped). -/
theorem c8_theorem (s : PState) (a : Agent) (d : TicketDocument)
    (ha : s.core.curAgent = some a) (hd : s.core.curDoc = some d)
    (hnotin : { a with documents := a.documents ++ [d] } ∉ s.core.file.agents) :
    (finalizeParse s).core.file.agents
      = s.core.file.agents ++ [{ a with documents := a.documents ++ [d] }] := by
  unfold finalizeParse
  simp only [hd, ha]
  try dsimp only
  rw [if_neg hnotin]

/-- Witness for `c8_theorem`: a default Agent and a default Document — both
with every identifying field empty — are still finalized into the model. -/
theorem c8_witness :
    (({ initPState with core := { initPState.core with
          curAgent := some initAgent, curDoc := some initDocument } } :
        PState).core.curAgent = some initAgent ∧
      ({ initPState with core := { initPState.core with
          curAgent := some initAgent, curDoc := some initDocument } } :
        PState).core.curDoc = some initDocument ∧
      { initAgent with documents := initAgent.documents ++ [initDocument] }
        ∉ ({ initPState with core := { initPState.core with
              curAgent := some initAgent, curDoc := some initDocument } } :
            PState).core.file.agents) ∧
    (finalizeParse { initPState with core := { initPState.core with
        curAgent := some initAgent, curDoc := some initDocument } }).core.file.agents
      = ({ initPState with core := { initPState.core with
          curAgent := some initAgent, curDoc := some initDocument } } :
          PState).core.file.agents
        ++ [{ initAgent with documents := initAgent.documents ++ [initDocument] }] :=
  ⟨⟨rfl, rfl, by decide⟩,
   c8_theorem _ initAgent initDocument rfl rfl (by decide)⟩
